import Mathlib

/-!
Verification of the IGLoginAgent coordination logic: a shallow embedding of
the Claim Coordinator (`Shared/Utils/airtable_manager.py`), the State
Detector (`Shared/instagram_actions.py`), the Login State Machine
(`Login/login_bot.py`), the Popup Watcher callbacks
(`Shared/popup_handler.py`) and the Warmup loop (`Warmup/scroller.py`).

UI probes, the external table, the mailbox reader and randomness are
modelled as explicit oracle inputs; each embedded operation returns its
result together with a trace of the externally visible effects (status
writes, gestures, clicks) so that "exactly one write / at most one like"
style properties can be stated as facts about the trace.
-/

namespace IGLA

/-! ## State Detector (`Shared/instagram_actions.py`, `get_current_view_state`) -/

/-- The property and attribute names the `XpathConfig` class defines
(`Shared/config.py`). -/
def xpathConfigProperties : List String :=
  ["package_name",
   "login_page_identifier", "login_username_field", "login_password_field",
   "login_button", "login_loading_indicator", "incorrect_password_text",
   "incorrect_password_ok_button", "two_fa_page_identifier",
   "two_fa_code_input", "two_fa_confirm_button", "account_suspended_text",
   "save_login_info_prompt", "save_login_info_save_button",
   "turn_on_notifications_prompt", "home_feed_identifier",
   "nav_creation_tab", "nav_explore_tab", "nav_back_button",
   "nav_next_button", "nav_share_button", "nav_done_button",
   "explore_search_bar", "search_results_container",
   "search_layout_container_frame", "search_image_post_button",
   "search_reel_imageview", "search_reel_imageview_template",
   "reel_profile_picture", "reel_caption_container", "reel_likes_button",
   "reel_comment_button", "reel_reshare_button", "reel_audio_link",
   "reel_follow_button", "reel_like_or_unlike_button"]

/-- Python attribute dispatch on an `XpathConfig` instance: accessing a
name the class does not define raises `AttributeError`. -/
def getattrXpathConfig (name : String) : Except String Unit :=
  if name ∈ xpathConfigProperties then .ok () else .error "AttributeError"

/-- The would-be boolean results of the six landmark existence probes
`get_current_view_state` names, in the order the source checks them.
Three of the six selector names (`reel_comment_input_field`,
`peek_view_container`, `likes_page_title`) are not defined on
`XpathConfig`, so a probe value is consulted only when the selector
attribute access succeeds. -/
structure UiLandmarks where
  reel_comment_input_field : Bool
  peek_view_container : Bool
  likes_page_title : Bool
  reel_like_or_unlike_button : Bool
  explore_search_bar : Bool
  home_feed_identifier : Bool
deriving DecidableEq, Repr

/-- One check of `get_current_view_state`: fetch the selector property
from `xpath_config` (raising `AttributeError` when `XpathConfig` does not
define it), then run the existence probe. -/
def checkLandmark (name : String) (present : Bool) : Except String Bool :=
  match getattrXpathConfig name with
  | .error e => .error e
  | .ok _ => .ok present

/-- `InstagramInteractions.get_current_view_state`: checks the six
landmarks in priority order and returns the label of the first one
present, `"UNKNOWN"` otherwise — but each check first accesses the
selector property on `xpath_config`, the very first name
(`reel_comment_input_field`) is undefined, and the function has no
exception handler, so the `AttributeError` propagates out of every
call. -/
def get_current_view_state (ui : UiLandmarks) : Except String String := do
  if ← checkLandmark "reel_comment_input_field"
      ui.reel_comment_input_field then
    return "IN_COMMENTS_VIEW"
  if ← checkLandmark "peek_view_container" ui.peek_view_container then
    return "IN_PEEK_VIEW"
  if ← checkLandmark "likes_page_title" ui.likes_page_title then
    return "ON_LIKES_PAGE"
  if ← checkLandmark "reel_like_or_unlike_button"
      ui.reel_like_or_unlike_button then
    return "IN_REEL"
  if ← checkLandmark "explore_search_bar" ui.explore_search_bar then
    return "ON_EXPLORE_GRID"
  if ← checkLandmark "home_feed_identifier" ui.home_feed_identifier then
    return "ON_HOME_FEED"
  return "UNKNOWN"

/-- Every call to the state detector dies on its first selector access:
`XpathConfig` does not define `reel_comment_input_field`. -/
theorem view_state_attribute_error (ui : UiLandmarks) :
    get_current_view_state ui = .error "AttributeError" := rfl

/-- C5 (failing behaviour): the non-blocking state detector never returns
any label — for every landmark set, including one with the comments-panel
and reel landmarks both present, the first check's attribute access on
`XpathConfig` raises `AttributeError` (three of the six selectors are
undefined there) and the exception propagates, so the claimed
earliest-priority-label return never happens. -/
theorem view_state_never_returns_label (ui : UiLandmarks) :
    get_current_view_state ui = .error "AttributeError" ∧
    ∀ s : String, get_current_view_state ui ≠ .ok s := by
  refine ⟨view_state_attribute_error ui, fun s h => ?_⟩
  rw [view_state_attribute_error ui] at h
  exact Except.noConfusion h

/-! ## Proactive explore scroll
(`Shared/instagram_actions.py`, `scroll_explore_feed_proactive`) -/

/-- The result `scroll_explore_feed_proactive` would return if it
completed: the returned boolean, and whether the swipe gesture
(`perform_human_swipe`) was issued during the call. -/
structure ScrollResult where
  returned : Bool
  gestureIssued : Bool
deriving DecidableEq, Repr

/-- `InstagramInteractions.scroll_explore_feed_proactive`: calls
`get_current_view_state` first, outside the `try` (which wraps only the
gesture), so the state call's `AttributeError` propagates; only on a
returned state would it block the scroll off the explore grid (`False`,
no gesture) or attempt the gesture on it (`swipeRaises` is the oracle for
the gesture raising inside the `try`). -/
def scroll_explore_feed_proactive (ui : UiLandmarks) (swipeRaises : Bool) :
    Except String ScrollResult :=
  match get_current_view_state ui with
  | .error e => .error e
  | .ok st =>
    if st ≠ "ON_EXPLORE_GRID" then .ok ⟨false, false⟩
    else if swipeRaises then .ok ⟨false, true⟩
    else .ok ⟨true, true⟩

/-- C9 (failing behaviour): the proactive explore scroll never performs a
swipe gesture in any state — but it also never blocks and returns
`False`: its state call sits outside the `try` and always raises
`AttributeError`, so the call never returns at all, and the claimed
no-gesture-and-`False` behaviour off the explore grid is unreachable. -/
theorem proactive_scroll_raises (ui : UiLandmarks) (swipeRaises : Bool) :
    scroll_explore_feed_proactive ui swipeRaises = .error "AttributeError" := by
  unfold scroll_explore_feed_proactive
  rw [view_state_attribute_error]

/-! ## Claim Coordinator (`Shared/Utils/airtable_manager.py`) -/

/-- A scalar value as it arrives from the external table's JSON: a string,
a number, a boolean, or null.  (Airtable cell values are scalars or lists
of scalars.) -/
inductive Scalar where
  | null
  | str (s : String)
  | num (n : Int)
  | bool (b : Bool)
deriving DecidableEq, Repr

/-- A cell value handed to `_flatten_field`: a scalar, or a list-wrapped
spreadsheet value. -/
inductive Cell where
  | scalar (v : Scalar)
  | list (xs : List Scalar)
deriving DecidableEq, Repr

/-- Python's `str(value)` rendering for the non-`None` scalar values the
flattener can meet after unwrapping. -/
def pyStrScalar : Scalar → String
  | .null => "None"
  | .str s => s
  | .num n => toString n
  | .bool true => "True"
  | .bool false => "False"

/-- Python's `str.strip()`: drop leading and trailing whitespace. -/
def pyStrip (s : String) : String :=
  ⟨((s.data.dropWhile Char.isWhitespace).reverse.dropWhile
      Char.isWhitespace).reverse⟩

/-- The tail of `_flatten_field` applied to an unwrapped value: a string is
stripped, a non-`None` value is rendered with `str`, `None` yields `None`. -/
def flattenScalar : Scalar → Option String
  | .str s => some (pyStrip s)
  | .null => none
  | v => some (pyStrScalar v)

/-- `AirtableClient._flatten_field`: a list yields `None` when empty and is
otherwise replaced by its first element; then strings are stripped and
other non-`None` values rendered with `str`. -/
def flatten_field : Cell → Option String
  | .list [] => none
  | .list (v :: _) => flattenScalar v
  | .scalar v => flattenScalar v

/-- Python truthiness of an `Optional[str]`: `None` and the empty string
are falsy. -/
def truthy : Option String → Bool
  | none => false
  | some s => s ≠ ""

/-- The field cells of one row of the accounts table that
`_process_login_record` reads (a missing key is `.scalar .null`, matching
`fields.get(...)` returning `None`). -/
structure RecordFields where
  account : Cell
  password : Cell
  packageName : Cell
  deviceId : Cell
  email : Cell
  emailPassword : Cell
deriving DecidableEq, Repr

/-- One record returned by the table query.  `id` is `none` when the
record has no valid string id (`record.get("id")` missing or not a
string). -/
structure AirRecord where
  id : Option String
  fields : RecordFields
deriving DecidableEq, Repr

/-- The dictionary `_process_login_record` builds from a record. -/
structure AccountData where
  record_id : String
  instagram_username : Option String
  instagram_password : Option String
  package_name : Option String
  device_id : Option String
  email_address : Option String
  email_password : Option String
deriving DecidableEq, Repr

/-- One `{"Status": ...}` write issued against the accounts table. -/
structure StatusWrite where
  record_id : String
  status : String
deriving DecidableEq, Repr

/-- The table's response to one `table.update(record_id, fields)` call:
success, an HTTP rejection (`HTTPError`), or some other exception. -/
inductive UpdateOutcome where
  | ok
  | httpError
  | otherError
deriving DecidableEq, Repr

/-- `AirtableClient.update_record`: refuses a falsy `record_id`, otherwise
attempts the table update and catches every exception, returning `None` on
failure.  The embedding is a total function — this method never raises. -/
def update_record (outcome : UpdateOutcome) (record_id : String) :
    Option Unit :=
  if record_id = "" then none
  else match outcome with
    | .ok => some ()
    | .httpError => none
    | .otherError => none

/-- `AirtableClient._process_login_record`: builds the account dictionary
via `_flatten_field`, and when any of the four required fields is falsy,
issues one `{"Status": "Missing Credentials"}` write and returns `None`.
Returns the produced value together with the status writes issued. -/
def process_login_record (r : AirRecord) :
    Option AccountData × List StatusWrite :=
  match r.id with
  | none => (none, [])
  | some rid =>
    let data : AccountData :=
      { record_id := rid
        instagram_username := flatten_field r.fields.account
        instagram_password := flatten_field r.fields.password
        package_name := flatten_field r.fields.packageName
        device_id := flatten_field r.fields.deviceId
        email_address := flatten_field r.fields.email
        email_password := flatten_field r.fields.emailPassword }
    if truthy data.instagram_username && truthy data.instagram_password &&
        truthy data.package_name && truthy data.device_id then
      (some data, [])
    else
      (none, [⟨rid, "Missing Credentials"⟩])

/-- C4: for every record examined during claim processing that carries a
valid string id, if any required field (username, password, package name,
device id) is missing or empty after normalization, the record is never
returned as a successful claim and exactly one status write marking it
invalid (`Missing Credentials`) is issued for it. -/
theorem invalid_record_rejected_with_one_write (r : AirRecord) (rid : String)
    (hid : r.id = some rid)
    (hmiss : ¬(truthy (flatten_field r.fields.account) = true ∧
               truthy (flatten_field r.fields.password) = true ∧
               truthy (flatten_field r.fields.packageName) = true ∧
               truthy (flatten_field r.fields.deviceId) = true)) :
    process_login_record r = (none, [⟨rid, "Missing Credentials"⟩]) := by
  unfold process_login_record
  rw [hid]
  simp only []
  have hcond : (truthy (flatten_field r.fields.account) &&
      truthy (flatten_field r.fields.password) &&
      truthy (flatten_field r.fields.packageName) &&
      truthy (flatten_field r.fields.deviceId)) = false := by
    by_contra hne
    apply hmiss
    have := Bool.of_not_eq_false hne
    simp only [Bool.and_eq_true] at this
    exact ⟨this.1.1.1, this.1.1.2, this.1.2, this.2⟩
  simp [hcond]

/-- Witness for C4: a record with id `recEmptyPw`, a username, but an
empty-string password cell is rejected with exactly the
`Missing Credentials` write. -/
theorem invalid_record_rejected_witness :
    process_login_record
      ⟨some "recEmptyPw",
        ⟨.scalar (.str "alice"), .scalar (.str "  "), .scalar (.str "com.ig"),
         .scalar (.str "devA"), .scalar .null, .scalar .null⟩⟩ =
      (none, [⟨"recEmptyPw", "Missing Credentials"⟩]) := by
  exact invalid_record_rejected_with_one_write _ "recEmptyPw" rfl (by decide)

/-! ## Claim loop (`fetch_and_claim_account_for_device`) -/

/-- One attempted claim update recorded by the fetch loop: the record it
targeted and the table's response. -/
structure ClaimAttempt where
  record_id : String
  outcome : UpdateOutcome
deriving DecidableEq, Repr

/-- The environment of one `fetch_and_claim_account_for_device` call:
the candidate rows the filtered query returns (`none` when the query
itself raises, handled by the outer `except`), and the table's response to
the claim update for each record id. -/
structure FetchEnv where
  queryResult : Option (List AirRecord)
  updateOutcome : String → UpdateOutcome

/-- The candidate scan of `fetch_and_claim_account_for_device`: records
without a string id are skipped; for the first record with one, the claim
update is attempted via `update_record` — which catches every exception
internally and cannot raise, so the `except HTTPError: continue` arm below
the call in the source is unreachable — and the processed record is
returned regardless of the attempt's outcome. -/
def claimLoop (upd : String → UpdateOutcome) :
    List AirRecord → Option AccountData × List ClaimAttempt × List StatusWrite
  | [] => (none, [], [])
  | r :: rest =>
    match r.id with
    | none => claimLoop upd rest
    | some rid =>
      let _claimResult := update_record (upd rid) rid
      let (res, ws) := process_login_record r
      (res, [⟨rid, upd rid⟩], ws)

/-- `AirtableClient.fetch_and_claim_account_for_device`: queries up to five
ready rows for the device and scans them with the claim loop.  Returns the
claimed account (if any), the claim attempts made, and the status writes
issued while processing. -/
def fetch_and_claim_account_for_device (env : FetchEnv) :
    Option AccountData × List ClaimAttempt × List StatusWrite :=
  match env.queryResult with
  | none => (none, [], [])
  | some [] => (none, [], [])
  | some accounts => claimLoop env.updateOutcome accounts

/-- A fully populated candidate row used to exhibit the rejected-claim
behaviour. -/
def rejectedClaimRecord : AirRecord :=
  ⟨some "rec1",
    ⟨.scalar (.str "alice"), .scalar (.str "pw1"), .scalar (.str "com.ig"),
     .scalar (.str "devA"), .scalar (.str "a@x.io"), .scalar (.str "epw")⟩⟩

/-- An environment in which the external table rejects every claim update
with an HTTP error. -/
def rejectedClaimEnv : FetchEnv :=
  ⟨some [rejectedClaimRecord], fun _ => .httpError⟩

/-- C1 (failing run): when the table rejects the claim update for `rec1`
with an HTTP error — so `update_record` swallows the `HTTPError` and
returns `None` — the candidate is not skipped: `rec1` is still the
non-empty return value of the call, contradicting the claim that a record
whose claim update did not succeed is never returned. -/
theorem rejected_claim_still_returned :
    update_record (rejectedClaimEnv.updateOutcome "rec1") "rec1" = none ∧
    (fetch_and_claim_account_for_device rejectedClaimEnv).2.1 =
      [⟨"rec1", .httpError⟩] ∧
    (fetch_and_claim_account_for_device rejectedClaimEnv).1 =
      some ⟨"rec1", some "alice", some "pw1", some "com.ig", some "devA",
        some "a@x.io", some "epw"⟩ := by
  refine ⟨rfl, rfl, ?_⟩
  decide

/-! ## Blocking post-login detector (`Login/login_bot.py`,
`detect_post_login_state`) -/

/-- The six selectors the post-login checks probe, named as in
`XpathConfig`. -/
inductive PostXpath where
  | save_login_info_prompt
  | turn_on_notifications_prompt
  | home_feed_identifier
  | two_fa_page_identifier
  | two_fa_code_input
  | account_suspended_text
deriving DecidableEq, Repr

/-- The ordered `checks` table of `detect_post_login_state`: each state
label with the selectors whose presence indicates it. -/
def postLoginChecks : List (String × List PostXpath) :=
  [("login_success",
    [.save_login_info_prompt, .turn_on_notifications_prompt,
     .home_feed_identifier]),
   ("2fa_required", [.two_fa_page_identifier, .two_fa_code_input]),
   ("account_suspended", [.account_suspended_text])]

/-- One pass over the `checks` table: the first state one of whose
selectors currently exists, `none` when no selector matches. -/
def scanChecks (probe : PostXpath → Bool) : Option String :=
  postLoginChecks.findSome? (fun p => if p.2.any probe then some p.1 else none)

/-- The polling loop of `detect_post_login_state`: one scan per ~1s tick
until a state matches or the time budget (`fuel` remaining polls) is
exhausted, in which case `"unknown"` is returned. -/
def detectLoop (probeAt : Nat → PostXpath → Bool) : Nat → Nat → String
  | _, 0 => "unknown"
  | tick, fuel + 1 =>
    match scanChecks (probeAt tick) with
    | some st => st
    | none => detectLoop probeAt (tick + 1) fuel

/-- `InstagramLoginHandler.detect_post_login_state` for a timeout allowing
`fuel` polls; `probeAt t x` is the existence probe of selector `x` during
poll `t`. -/
def detect_post_login_state (probeAt : Nat → PostXpath → Bool)
    (fuel : Nat) : String :=
  detectLoop probeAt 0 fuel

/-- If no selector ever matches, every remaining poll scans to `none` and
the loop runs to exhaustion. -/
theorem detectLoop_all_false (probeAt : Nat → PostXpath → Bool)
    (h : ∀ t x, probeAt t x = false) :
    ∀ fuel tick, detectLoop probeAt tick fuel = "unknown" := by
  intro fuel
  induction fuel with
  | zero => intro tick; rfl
  | succ n ih =>
    intro tick
    have hscan : scanChecks (probeAt tick) = none := by
      simp [scanChecks, postLoginChecks, h]
    simp [detectLoop, hscan, ih]

/-- C8: for every timeout, if no landmark of any known state matches
before the timeout elapses, the blocking detection returns the `"unknown"`
label (exactly once — it is a total function returning a single value) and
never raises: every probe is a boolean existence check and every path
returns a string. -/
theorem no_landmark_yields_unknown (probeAt : Nat → PostXpath → Bool)
    (fuel : Nat) (h : ∀ t x, probeAt t x = false) :
    detect_post_login_state probeAt fuel = "unknown" :=
  detectLoop_all_false probeAt h fuel 0

/-- Witness for C8: with all probes false and a 20-poll budget, the
detector returns `"unknown"`. -/
theorem no_landmark_yields_unknown_witness :
    detect_post_login_state (fun _ _ => false) 20 = "unknown" :=
  no_landmark_yields_unknown (fun _ _ => false) 20 (fun _ _ => rfl)

/-! ## Two-factor flow (`Login/login_bot.py`, `handle_2fa`) -/

/-- UI interactions the 2FA handler performs, with the success of each
click attempt (a `click_by_xpath` call). -/
inductive TwoFaAction where
  | clickCodeInput (success : Bool)
  | typeCode (code : String)
  | clickConfirm (success : Bool)
deriving DecidableEq, Repr

/-- Oracles for one `handle_2fa` run: the mailbox reader's result for each
fetch attempt, the outcomes of the two click attempts, and the signals
`verify_login_after_2fa` waits on. -/
structure TwoFaEnv where
  codeFetch : Nat → Option String
  codeInputClick : Bool
  confirmClick : Bool
  saveInfoHandled : Bool
  homeFeedAppears : Bool

/-- `max_retries` of the 2FA code-fetch loop. -/
def max_retries : Nat := 5

/-- The code-fetch retry loop: attempts in order, stopping at the first
code obtained, `none` once the remaining budget is exhausted. -/
def fetchCodeFrom (fetch : Nat → Option String) :
    Nat → Nat → Option String
  | _, 0 => none
  | attempt, remaining + 1 =>
    match fetch attempt with
    | some c => some c
    | none => fetchCodeFrom fetch (attempt + 1) remaining

/-- The whole fetch phase of `handle_2fa`: up to `max_retries` attempts
starting from attempt 0. -/
def fetchCodeLoop (fetch : Nat → Option String) : Option String :=
  fetchCodeFrom fetch 0 max_retries

/-- `InstagramLoginHandler.verify_login_after_2fa`: waits on the popup
handler's save-info event, then checks the home-feed landmark. -/
def verify_login_after_2fa (env : TwoFaEnv) : String :=
  if ¬env.saveInfoHandled then "login_failed"
  else if env.homeFeedAppears then "login_success"
  else "login_failed"

/-- `InstagramLoginHandler.handle_2fa`: fetch a code (bounded retries);
without one return `"2fa_failed"` immediately; otherwise click the code
input, type the code, click confirm, and map the verification result to
`"login_success"` or `"2fa_failed"`.  The returned list is the trace of UI
interactions performed. -/
def handle_2fa (env : TwoFaEnv) : String × List TwoFaAction :=
  match fetchCodeLoop env.codeFetch with
  | none => ("2fa_failed", [])
  | some code =>
    if ¬env.codeInputClick then ("2fa_failed", [.clickCodeInput false])
    else if env.confirmClick then
      let acts := [.clickCodeInput true, .typeCode code, .clickConfirm true]
      if verify_login_after_2fa env = "login_success" then
        ("login_success", acts)
      else ("2fa_failed", acts)
    else
      ("2fa_failed", [.clickCodeInput true, .typeCode code,
        .clickConfirm false])

/-- If every attempt in the remaining budget yields no code, the fetch
loop yields none. -/
theorem fetchCodeFrom_none (fetch : Nat → Option String) :
    ∀ remaining attempt, (∀ i, i < remaining → fetch (attempt + i) = none) →
      fetchCodeFrom fetch attempt remaining = none := by
  intro remaining
  induction remaining with
  | zero => intro attempt _; rfl
  | succ n ih =>
    intro attempt h
    have h0 : fetch attempt = none := by simpa using h 0 n.succ_pos
    have hrest : ∀ i, i < n → fetch (attempt + 1 + i) = none := by
      intro i hi
      have := h (i + 1) (by omega)
      simpa [Nat.add_assoc, Nat.add_comm 1 i] using this
    simp [fetchCodeFrom, h0, ih (attempt + 1) hrest]

/-- C7: if the mailbox reader returns no code on each of the 5 fetch
attempts, `handle_2fa` returns `"2fa_failed"` with an empty interaction
trace — in particular it never attempts to click the 2FA confirm button
and never enters any code. -/
theorem no_code_yields_2fa_failed (env : TwoFaEnv)
    (h : ∀ i, i < max_retries → env.codeFetch i = none) :
    handle_2fa env = ("2fa_failed", []) := by
  have hnone : fetchCodeLoop env.codeFetch = none := by
    apply fetchCodeFrom_none
    intro i hi
    simpa using h i hi
  simp [handle_2fa, hnone]

/-- Witness for C7 at a concrete environment whose mailbox never yields a
code. -/
theorem no_code_yields_2fa_failed_witness :
    handle_2fa ⟨fun _ => none, true, true, true, true⟩ = ("2fa_failed", []) :=
  no_code_yields_2fa_failed ⟨fun _ => none, true, true, true, true⟩
    (fun _ _ => rfl)

/-! ## Login flow (`Login/login_bot.py`, `execute_login`) -/

/-- One status write issued through `_update_airtable_status`. -/
inductive LoginWrite where
  | status (s : String)
  | loggedInActive
deriving DecidableEq, Repr

/-- `InstagramLoginHandler._update_airtable_status`: forwards the write to
the Airtable client's update path only when both the client and the record
id are set (`hasContext`). -/
def update_airtable_status (hasContext : Bool) (w : LoginWrite) :
    List LoginWrite :=
  if hasContext then [w] else []

/-- The call sites of `execute_login` at which the source can raise an
unexpected exception, in flow order; the top-level `except Exception` arm
converts any of them into one `Login Error: <class>` status write and the
`"error"` outcome.  `click_by_xpath` and `_update_airtable_status` catch
their own exceptions in the source and therefore have no point here;
`duringHandle2fa` covers the raisable calls inside the 2FA sub-flow
(mailbox fetch, typing, waits), `duringDetect` those inside the post-login
detector's probes. -/
inductive ExcPoint where
  | waitLoginPage
  | waitUsernameField
  | enterUsername
  | waitPasswordField
  | enterPassword
  | waitLoading
  | probeIncorrectPassword
  | probeTwoFaPage
  | duringDetect
  | duringHandle2fa
deriving DecidableEq, Repr

/-- The top-level `except Exception` arm of `execute_login`: one generic
status write carrying the exception class name, then outcome `"error"`. -/
def excWrite (hasContext : Bool) (className : String) :
    String × List LoginWrite :=
  ("error",
    update_airtable_status hasContext
      (.status ("Login Error: " ++ className)))

/-- Oracles for one `execute_login` run: the outcomes of every bounded
wait/click the flow performs, in source order, the environments of the
post-login detector and the 2FA sub-flow, and, for each call site that
can raise, whether it raises an unexpected exception on this run (and the
exception's class name). -/
structure LoginEnv where
  hasContext : Bool
  loginPageAppears : Bool
  usernameFieldAppears : Bool
  passwordFieldAppears : Bool
  loginButtonClick : Bool
  loadingAppeared : Bool
  loadingVanished : Bool
  incorrectPasswordShown : Bool
  twoFaPageShown : Bool
  postProbeAt : Nat → PostXpath → Bool
  postFuel : Nat
  twoFa : TwoFaEnv
  raises : ExcPoint → Option String

/-- `InstagramLoginHandler.execute_login`: the credential-entry steps with
their early `"error"` exits, the incorrect-password probe, the 2FA
shortcut, the post-login classification with the status writes each
terminal branch issues, and the top-level `except Exception` arm: before
each raisable call the exception oracle is consulted, and a raise anywhere
in the flow produces the `Login Error: <class>` write and `"error"`.  The
2FA sub-flow itself issues no status write (`handle_2fa` and
`verify_login_after_2fa` never call `_update_airtable_status`). -/
def execute_login (env : LoginEnv) : String × List LoginWrite :=
  match env.raises .waitLoginPage with
  | some c => excWrite env.hasContext c
  | none =>
  if ¬env.loginPageAppears then ("error", [])
  else match env.raises .waitUsernameField with
  | some c => excWrite env.hasContext c
  | none =>
  if ¬env.usernameFieldAppears then ("error", [])
  else match env.raises .enterUsername with
  | some c => excWrite env.hasContext c
  | none =>
  match env.raises .waitPasswordField with
  | some c => excWrite env.hasContext c
  | none =>
  if ¬env.passwordFieldAppears then ("error", [])
  else match env.raises .enterPassword with
  | some c => excWrite env.hasContext c
  | none =>
  if ¬env.loginButtonClick then ("error", [])
  else match env.raises .waitLoading with
  | some c => excWrite env.hasContext c
  | none =>
  if env.loadingAppeared ∧ ¬env.loadingVanished then ("error", [])
  else match env.raises .probeIncorrectPassword with
  | some c => excWrite env.hasContext c
  | none =>
  if env.incorrectPasswordShown then
    ("login_failed",
      update_airtable_status env.hasContext
        (.status "Login Failed - Incorrect PW"))
  else match env.raises .probeTwoFaPage with
  | some c => excWrite env.hasContext c
  | none =>
  if env.twoFaPageShown then
    match env.raises .duringHandle2fa with
    | some c => excWrite env.hasContext c
    | none => ((handle_2fa env.twoFa).1, [])
  else match env.raises .duringDetect with
  | some c => excWrite env.hasContext c
  | none =>
  match detect_post_login_state env.postProbeAt env.postFuel with
  | "login_success" =>
    ("login_success", update_airtable_status env.hasContext .loggedInActive)
  | "2fa_required" =>
    match env.raises .duringHandle2fa with
    | some c => excWrite env.hasContext c
    | none => ((handle_2fa env.twoFa).1, [])
  | "account_suspended" =>
    ("account_banned",
      update_airtable_status env.hasContext (.status "Banned"))
  | _ =>
    ("timeout_or_unknown",
      update_airtable_status env.hasContext
        (.status "Login Failed - Unknown State"))

/-- `handle_2fa` only ever returns `"2fa_failed"` or `"login_success"`. -/
theorem handle_2fa_result_cases (env : TwoFaEnv) :
    (handle_2fa env).1 = "2fa_failed" ∨ (handle_2fa env).1 = "login_success" := by
  unfold handle_2fa
  rcases fetchCodeLoop env.codeFetch with _ | code
  · exact Or.inl rfl
  · by_cases h1 : env.codeInputClick <;>
      by_cases h2 : env.confirmClick <;>
      by_cases h3 : verify_login_after_2fa env = "login_success" <;>
      simp [h1, h2, h3]

/-- The exception arm, with the context set, satisfies every conjunct of
the write discipline: one write, of the generic error shape. -/
theorem excWrite_discipline (c : String) (P : Prop) :
    (excWrite true c).2.length ≤ 1 ∧
    ((excWrite true c).1 = "login_failed" ∨
     (excWrite true c).1 = "account_banned" ∨
     (excWrite true c).1 = "timeout_or_unknown" →
      (excWrite true c).2.length = 1) ∧
    ((excWrite true c).1 = "2fa_failed" → (excWrite true c).2 = []) ∧
    ((excWrite true c).1 = "error" →
      ((excWrite true c).2 = [] ∨
        ∃ cn, (excWrite true c).2 = [.status ("Login Error: " ++ cn)])) ∧
    ((excWrite true c).1 = "login_success" →
      ((excWrite true c).2 = [.loggedInActive] ↔ P)) := by
  have hfst : (excWrite true c).1 = "error" := rfl
  refine ⟨by simp [excWrite, update_airtable_status], fun h => ?_,
    fun h => ?_, fun _ => Or.inr ⟨c, rfl⟩, fun h => ?_⟩
  · rw [hfst] at h
    rcases h with h | h | h <;> exact absurd h (by decide)
  · rw [hfst] at h
    exact absurd h (by decide)
  · rw [hfst] at h
    exact absurd h (by decide)

/-- An environment whose run times out waiting for the login page, with
the Airtable context set and no call raising. -/
def earlyErrorEnv : LoginEnv :=
  ⟨true, false, true, true, true, false, true, false, false,
    fun _ _ => false, 20, ⟨fun _ => none, true, true, true, true⟩,
    fun _ => none⟩

/-- C2 (counterexample): a run with the Airtable context set whose wait
for the login page times out ends in the terminal outcome `"error"` with
zero status writes — so not every terminal outcome causes exactly one
status write through the update path. -/
theorem terminal_outcome_without_status_write :
    earlyErrorEnv.hasContext = true ∧
    execute_login earlyErrorEnv = ("error", []) := ⟨rfl, rfl⟩

/-- C2 (amended): with the Airtable context set, every run of
`execute_login` issues at most one status write.  The outcomes
`login_failed`, `account_banned` and `timeout_or_unknown` issue exactly
one; a `2fa_failed` outcome issues none; an `error` outcome issues either
none (the early bounded-wait returns) or exactly one generic
`Login Error: <class>` write (the top-level exception arm); and a
`login_success` outcome issues the active/logged-in write exactly when it
was reached through the direct post-login classification rather than the
2FA sub-flow. -/
theorem login_status_write_discipline (env : LoginEnv)
    (hctx : env.hasContext = true) :
    (execute_login env).2.length ≤ 1 ∧
    ((execute_login env).1 = "login_failed" ∨
     (execute_login env).1 = "account_banned" ∨
     (execute_login env).1 = "timeout_or_unknown" →
      (execute_login env).2.length = 1) ∧
    ((execute_login env).1 = "2fa_failed" → (execute_login env).2 = []) ∧
    ((execute_login env).1 = "error" →
      ((execute_login env).2 = [] ∨
        ∃ c, (execute_login env).2 = [.status ("Login Error: " ++ c)])) ∧
    ((execute_login env).1 = "login_success" →
      ((execute_login env).2 = [.loggedInActive] ↔
        (env.twoFaPageShown = false ∧
         detect_post_login_state env.postProbeAt env.postFuel =
           "login_success"))) := by
  have h2fa := handle_2fa_result_cases env.twoFa
  unfold execute_login
  rw [hctx]
  rcases hp1 : env.raises ExcPoint.waitLoginPage with _ | c1
  swap
  · simp only [hp1]
    exact excWrite_discipline c1 _
  simp only [hp1]
  by_cases h1 : env.loginPageAppears = true
  case neg =>
    rw [if_pos h1]
    exact ⟨by decide, fun h => absurd h (by decide),
      fun h => absurd h (by decide), fun _ => Or.inl rfl,
      fun h => absurd h (by decide)⟩
  rw [if_neg (not_not_intro h1)]
  rcases hp2 : env.raises ExcPoint.waitUsernameField with _ | c2
  swap
  · simp only [hp2]
    exact excWrite_discipline c2 _
  simp only [hp2]
  by_cases h2 : env.usernameFieldAppears = true
  case neg =>
    rw [if_pos h2]
    exact ⟨by decide, fun h => absurd h (by decide),
      fun h => absurd h (by decide), fun _ => Or.inl rfl,
      fun h => absurd h (by decide)⟩
  rw [if_neg (not_not_intro h2)]
  rcases hp3 : env.raises ExcPoint.enterUsername with _ | c3
  swap
  · simp only [hp3]
    exact excWrite_discipline c3 _
  simp only [hp3]
  rcases hp4 : env.raises ExcPoint.waitPasswordField with _ | c4
  swap
  · simp only [hp4]
    exact excWrite_discipline c4 _
  simp only [hp4]
  by_cases h3 : env.passwordFieldAppears = true
  case neg =>
    rw [if_pos h3]
    exact ⟨by decide, fun h => absurd h (by decide),
      fun h => absurd h (by decide), fun _ => Or.inl rfl,
      fun h => absurd h (by decide)⟩
  rw [if_neg (not_not_intro h3)]
  rcases hp5 : env.raises ExcPoint.enterPassword with _ | c5
  swap
  · simp only [hp5]
    exact excWrite_discipline c5 _
  simp only [hp5]
  by_cases h4 : env.loginButtonClick = true
  case neg =>
    rw [if_pos h4]
    exact ⟨by decide, fun h => absurd h (by decide),
      fun h => absurd h (by decide), fun _ => Or.inl rfl,
      fun h => absurd h (by decide)⟩
  rw [if_neg (not_not_intro h4)]
  rcases hp6 : env.raises ExcPoint.waitLoading with _ | c6
  swap
  · simp only [hp6]
    exact excWrite_discipline c6 _
  simp only [hp6]
  by_cases h5 : env.loadingAppeared = true ∧ ¬env.loadingVanished = true
  case pos =>
    rw [if_pos h5]
    exact ⟨by decide, fun h => absurd h (by decide),
      fun h => absurd h (by decide), fun _ => Or.inl rfl,
      fun h => absurd h (by decide)⟩
  rw [if_neg h5]
  rcases hp7 : env.raises ExcPoint.probeIncorrectPassword with _ | c7
  swap
  · simp only [hp7]
    exact excWrite_discipline c7 _
  simp only [hp7]
  by_cases h6 : env.incorrectPasswordShown = true
  case pos =>
    rw [if_pos h6]
    exact ⟨by decide, fun _ => by decide, fun h => absurd h (by decide),
      fun h => absurd h (by decide), fun h => absurd h (by decide)⟩
  rw [if_neg h6]
  rcases hp8 : env.raises ExcPoint.probeTwoFaPage with _ | c8
  swap
  · simp only [hp8]
    exact excWrite_discipline c8 _
  simp only [hp8]
  by_cases h7 : env.twoFaPageShown = true
  case pos =>
    rw [if_pos h7]
    rcases hp9 : env.raises ExcPoint.duringHandle2fa with _ | c9
    swap
    · simp only [hp9]
      exact excWrite_discipline c9 _
    simp only [hp9]
    rcases h2fa with hr | hr
    · refine ⟨by simp, fun h => ?_, fun _ => by trivial, fun h => ?_,
        fun h => ?_⟩
      · rw [hr] at h
        rcases h with h | h | h <;> exact absurd h (by decide)
      · rw [hr] at h
        exact absurd h (by decide)
      · rw [hr] at h
        exact absurd h (by decide)
    · refine ⟨by simp, fun h => ?_, fun h => ?_, fun h => ?_, fun _ => ?_⟩
      · rw [hr] at h
        rcases h with h | h | h <;> exact absurd h (by decide)
      · rw [hr] at h
        exact absurd h (by decide)
      · rw [hr] at h
        exact absurd h (by decide)
      · refine ⟨fun hh => by simp at hh, fun hh => ?_⟩
        rw [h7] at hh
        exact absurd hh.1 (by decide)
  rw [if_neg h7]
  have h7' : env.twoFaPageShown = false := by
    simpa using h7
  rcases hp10 : env.raises ExcPoint.duringDetect with _ | c10
  swap
  · simp only [hp10]
    exact excWrite_discipline c10 _
  simp only [hp10]
  split
  case _ hdet =>
    refine ⟨by decide, fun _ => by decide, fun h => absurd h (by decide),
      fun h => absurd h (by decide),
      fun _ => ⟨fun _ => ⟨h7', hdet⟩, fun _ => rfl⟩⟩
  case _ hdet =>
    rcases hp11 : env.raises ExcPoint.duringHandle2fa with _ | c11
    swap
    · simp only [hp11]
      exact excWrite_discipline c11 _
    simp only [hp11]
    rcases h2fa with hr | hr
    · refine ⟨by simp, fun h => ?_, fun _ => by trivial, fun h => ?_,
        fun h => ?_⟩
      · rw [hr] at h
        rcases h with h | h | h <;> exact absurd h (by decide)
      · rw [hr] at h
        exact absurd h (by decide)
      · rw [hr] at h
        exact absurd h (by decide)
    · refine ⟨by simp, fun h => ?_, fun h => ?_, fun h => ?_, fun _ => ?_⟩
      · rw [hr] at h
        rcases h with h | h | h <;> exact absurd h (by decide)
      · rw [hr] at h
        exact absurd h (by decide)
      · rw [hr] at h
        exact absurd h (by decide)
      · refine ⟨fun hh => by simp at hh, fun hh => ?_⟩
        rw [hdet] at hh
        exact absurd hh.2 (by decide)
  case _ hdet =>
    exact ⟨by decide, fun _ => by decide, fun h => absurd h (by decide),
      fun h => absurd h (by decide), fun h => absurd h (by decide)⟩
  case _ =>
    exact ⟨by decide, fun _ => by decide, fun h => absurd h (by decide),
      fun h => absurd h (by decide), fun h => absurd h (by decide)⟩

/-- A run hitting the incorrect-password branch (no call raising), used to
witness the amended write discipline at a concrete environment. -/
def incorrectPwEnv : LoginEnv :=
  ⟨true, true, true, true, true, false, true, true, false,
    fun _ _ => false, 20, ⟨fun _ => none, true, true, true, true⟩,
    fun _ => none⟩

/-- A run whose username-entry step raises a `RuntimeError`, exercising
the top-level exception arm. -/
def excDuringEntryEnv : LoginEnv :=
  ⟨true, true, true, true, true, false, true, false, false,
    fun _ _ => false, 20, ⟨fun _ => none, true, true, true, true⟩,
    fun p => if p = .enterUsername then some "RuntimeError" else none⟩

/-- Witness for the amended C2 at concrete runs: the incorrect-password
outcome issues exactly one status write, and a run raising during
username entry issues exactly the one generic error write. -/
theorem login_status_write_discipline_witness :
    (execute_login incorrectPwEnv).2.length ≤ 1 ∧
    (execute_login incorrectPwEnv).2.length = 1 ∧
    execute_login excDuringEntryEnv =
      ("error", [.status "Login Error: RuntimeError"]) := by
  have h := login_status_write_discipline incorrectPwEnv rfl
  exact ⟨h.1, h.2.1 (Or.inl rfl), by decide⟩

/-! ## Popup watcher suspension callback
(`Shared/popup_handler.py`, `handle_suspension`) -/

/-- The method names the `AirtableClient` class defines
(`Shared/Utils/airtable_manager.py`). -/
def airtableClientMethods : List String :=
  ["_flatten_field", "_process_login_record", "_process_warmup_record",
   "fetch_and_claim_account_for_device", "fetch_and_claim_account_for_login",
   "get_devices_with_ready_accounts", "fetch_account_for_warmup",
   "update_record"]

/-- Python attribute dispatch on an `AirtableClient` instance: accessing a
name the class does not define raises `AttributeError`. -/
def getattrAirtableClient (name : String) : Except String Unit :=
  if name ∈ airtableClientMethods then .ok () else .error "AttributeError"

/-- The `PopupHandler` fields `handle_suspension` reads: the one-shot
latch, and the Airtable context installed by `set_context`. -/
structure PopupState where
  suspensionHandled : Bool
  recordId : Option String
  hasAirtableClient : Bool
  packageName : Option String
deriving DecidableEq, Repr

/-- The externally visible effects of one firing of the suspension
callback: the status writes performed and whether the target app was
stopped. -/
structure SuspensionEffects where
  writes : List StatusWrite
  appStopped : Bool
deriving DecidableEq, Repr

/-- `PopupHandler.handle_suspension`: returns early when already latched
or when the Airtable context is missing; otherwise, inside a `try` whose
`except Exception` only logs, it calls
`self.airtable_client.update_record_fields(...)` — an attribute
`AirtableClient` does not define, so the dispatch raises `AttributeError`
before any write; the latch assignment and the `app_stop` call sit after
that line.  The `.ok` arm transcribes those subsequent source lines and is
reachable only if the attribute existed. -/
def handle_suspension (st : PopupState) : PopupState × SuspensionEffects :=
  if st.suspensionHandled then (st, ⟨[], false⟩)
  else if ¬truthy st.recordId ∨ ¬st.hasAirtableClient then (st, ⟨[], false⟩)
  else
    match getattrAirtableClient "update_record_fields" with
    | .error _ => (st, ⟨[], false⟩)
    | .ok _ =>
      ({ st with suspensionHandled := true },
       ⟨[⟨st.recordId.getD "", "Banned"⟩], truthy st.packageName⟩)

/-- C3 (failing behaviour): every firing of the suspension callback — with
or without the Airtable context — performs no status write, never stops
the app, and leaves the latch and the whole handler state unchanged,
because the `update_record_fields` attribute does not exist on
`AirtableClient` and the resulting `AttributeError` is swallowed.  The
claimed latched `Banned` write and force-stop never happen. -/
theorem suspension_callback_has_no_effect (st : PopupState) :
    handle_suspension st = (st, ⟨[], false⟩) := by
  unfold handle_suspension
  have hattr : getattrAirtableClient "update_record_fields" =
      .error "AttributeError" := rfl
  rw [hattr]
  by_cases h1 : st.suspensionHandled = true
  · rw [if_pos h1]
  · rw [if_neg h1]
    by_cases h2 : ¬truthy st.recordId = true ∨ ¬st.hasAirtableClient = true
    · rw [if_pos h2]
    · rw [if_neg h2]

/-! ## Warmup loop (`Warmup/scroller.py`, `run_warmup_session`) -/

/-- One extracted content card (a reel found on the search grid): its
fingerprint (`sha1` of the content description) and the description
itself. -/
structure ReelPost where
  id : String
  desc : String
deriving DecidableEq, Repr

/-- The externally visible actions of one warmup iteration. -/
inductive WarmupAction where
  | pressBack
  | navBackToExplore
  | clickExploreTab
  | scrollProactive
  | processReel (id : String)
  | idlePause
deriving DecidableEq, Repr

/-- Whether the warmup iteration continues to the next iteration or
breaks out of the session loop. -/
inductive IterOutcome where
  | breakLoop
  | continueLoop
deriving DecidableEq, Repr

/-- `ScrollerConfig.MAX_SCROLLS`. -/
def MAX_SCROLLS : Nat := 100

/-- Oracles for one warmup session: elapsed wall-clock seconds observed
at the top of each iteration and before each processed reel, the landmark
sets at each iteration's state check and at the trailing scroll's own
check, whether that scroll's gesture would raise, the extraction results,
and the sampled subset chosen for processing. -/
structure WarmupEnv where
  maxRuntimeSeconds : Nat
  elapsedAt : Nat → Nat
  elapsedInner : Nat → Nat → Nat
  uiAt : Nat → UiLandmarks
  uiAtScroll : Nat → UiLandmarks
  swipeRaisesAt : Nat → Bool
  extractAt : Nat → List ReelPost
  sampleAt : Nat → List ReelPost
  nextIdleAt : Nat → Nat

/-- Modelled from the spec: `ScrollerConfig.MAX_RUNTIME_SECONDS` is
referenced by `run_warmup_session` but is absent from the inspected
configuration (`Shared/config.py`); the spec's open question directs
treating it as a required configurable bound whose value is left to the
implementer, so the model takes it from the session environment. -/
def MAX_RUNTIME_SECONDS (env : WarmupEnv) : Nat := env.maxRuntimeSeconds

/-- The inner `for reel_data in reels_to_process` loop: a runtime check
before each reel, the `process_reel` call (abstracted to its action — the
branch holding this loop is unreachable, the iteration's state check
raises first), the seen-set insertion, and the periodic idle-pause
bookkeeping (`actions_since_idle` / `next_idle_at`). -/
def processReelsLoop (env : WarmupEnv) (i : Nat) :
    List ReelPost → List String → Nat → Nat → Nat →
    List WarmupAction × List String × Nat × Nat
  | [], seen, actionsSince, nextIdle, _ => ([], seen, actionsSince, nextIdle)
  | r :: rest, seen, actionsSince, nextIdle, j =>
    if env.elapsedInner i j > MAX_RUNTIME_SECONDS env then
      ([], seen, actionsSince, nextIdle)
    else
      let seen := r.id :: seen
      let actionsSince := actionsSince + 1
      if actionsSince ≥ nextIdle then
        let (acts, seen, a, n) :=
          processReelsLoop env i rest seen 0 (env.nextIdleAt j) (j + 1)
        (WarmupAction.processReel r.id :: WarmupAction.idlePause :: acts,
          seen, a, n)
      else
        let (acts, seen, a, n) :=
          processReelsLoop env i rest seen actionsSince nextIdle (j + 1)
        (WarmupAction.processReel r.id :: acts, seen, a, n)

/-- One iteration of the main scrolling loop of `run_warmup_session`: the
runtime-budget break, then the state-check-and-recovery block — whose
`get_current_view_state` call raises `AttributeError` on every call (the
undefined `XpathConfig` selectors) and `run_warmup_session` has no
handler for it, so the error propagates out of the session — and, on a
returned state, the extraction of cards not yet seen followed by either
the no-new-cards scroll (itself a raising call, its state check hits the
same missing selectors) or the processing of the sampled subset and the
trailing scroll. -/
def warmupIterBody (env : WarmupEnv) (i : Nat) (seen : List String)
    (actionsSince nextIdle : Nat) :
    Except String (List WarmupAction × List String × Nat × Nat × IterOutcome) :=
  if env.elapsedAt i > MAX_RUNTIME_SECONDS env then
    .ok ([], seen, actionsSince, nextIdle, .breakLoop)
  else
    match get_current_view_state (env.uiAt i) with
    | .error e => .error e
    | .ok st =>
      if st = "IN_PEEK_VIEW" then
        .ok ([.pressBack], seen, actionsSince, nextIdle, .continueLoop)
      else if st = "IN_REEL" then
        .ok ([.navBackToExplore], seen, actionsSince, nextIdle, .continueLoop)
      else if st = "ON_HOME_FEED" then
        .ok ([.clickExploreTab], seen, actionsSince, nextIdle, .continueLoop)
      else if st = "UNKNOWN" then
        .ok ([.pressBack], seen, actionsSince, nextIdle, .continueLoop)
      else
        let new_reels :=
          (env.extractAt i).filter (fun r => ¬seen.contains r.id)
        if new_reels.isEmpty then
          match scroll_explore_feed_proactive (env.uiAtScroll i)
              (env.swipeRaisesAt i) with
          | .error e => .error e
          | .ok _ =>
            .ok ([.scrollProactive], seen, actionsSince, nextIdle,
              .continueLoop)
        else
          let (acts, seen2, a, n) :=
            processReelsLoop env i (env.sampleAt i) seen actionsSince
              nextIdle 0
          match scroll_explore_feed_proactive (env.uiAtScroll i)
              (env.swipeRaisesAt i) with
          | .error e => .error e
          | .ok _ =>
            .ok (acts ++ [.scrollProactive], seen2, a, n, .continueLoop)

/-- C6 (failing behaviour): granting the spec-modelled runtime bound,
every iteration of the main warmup loop that is within the budget raises
`AttributeError` at its state check — `get_current_view_state` accesses
`XpathConfig` selectors that do not exist — so no iteration ever reaches
the extraction step, no scroll is issued, and the loop does not proceed
to a next iteration: the claimed scroll-and-continue behaviour on empty
extraction never happens (and the no-new-cards scroll call would raise
the same way). -/
theorem warmup_iteration_raises (env : WarmupEnv) (i : Nat)
    (seen : List String) (actionsSince nextIdle : Nat)
    (htime : ¬env.elapsedAt i > MAX_RUNTIME_SECONDS env) :
    warmupIterBody env i seen actionsSince nextIdle =
      .error "AttributeError" := by
  unfold warmupIterBody
  rw [if_neg htime, view_state_attribute_error]

/-- A concrete environment for the C6 witness: well inside the runtime
budget, extraction always empty. -/
def emptyExtractionEnv : WarmupEnv :=
  ⟨300, fun _ => 0, fun _ _ => 0,
    fun _ => ⟨false, false, false, false, true, false⟩,
    fun _ => ⟨false, false, false, false, true, false⟩,
    fun _ => false, fun _ => [], fun _ => [], fun _ => 4⟩

/-- Witness for C6 at a concrete in-budget iteration. -/
theorem warmup_iteration_raises_witness :
    warmupIterBody emptyExtractionEnv 0 [] 0 4 = .error "AttributeError" :=
  warmup_iteration_raises emptyExtractionEnv 0 [] 0 4 (by decide)

/-! ## Reel processing (`Warmup/scroller.py`, `process_reel`) -/

/-- The externally visible actions of one `process_reel` invocation.
`likeAttempt` is a call to `like_current_post_or_reel`; `commentSim` is a
call to `simulate_open_close_comments` (whose internal comment-liking is a
different control, not a reel like). -/
inductive ReelAction where
  | tapOpen (success : Bool)
  | lightInteraction
  | likeAttempt (success : Bool)
  | commentSim (success : Bool)
  | navBack
deriving DecidableEq, Repr

/-- The mutable locals of the interaction `while` loop of `process_reel`.
`likeDelay = none` models the sentinel `like_delay = float("inf")` the
source assigns to disable the like trigger; `interactions` is the not yet
consumed tail of `interaction_times` whose head is
`next_interaction_time`. -/
structure ReelLoopState where
  liked : Bool
  commented : Bool
  shouldComment : Bool
  likeDelay : Option ℚ
  interactions : List ℚ
deriving DecidableEq, Repr

/-- Oracles for one `process_reel` run: the randomized watch window and
offsets, the probabilistic-roll results, the success of each UI call, and
the `elapsed` values the `while` loop observes on its successive
iterations. -/
structure ReelEnv where
  watchTime : ℚ
  likeDelay0 : ℚ
  interactionTimes : List ℚ
  likeRoll : Bool
  likeSucceeds : Bool
  shouldComment0 : Bool
  commentSucceeds : Bool
  tapOpens : Bool
  elapsedTicks : List ℚ

/-- The light-interaction block of the loop body: when the next
interaction offset is due, perform one light interaction and pop it. -/
def lightStep (st : ReelLoopState) (elapsed : ℚ) :
    ReelLoopState × List ReelAction :=
  match st.interactions with
  | t :: rest =>
    if t ≤ elapsed then
      ({ st with interactions := rest }, [.lightInteraction])
    else (st, [])
  | [] => (st, [])

/-- The like block of the loop body: runs when not yet liked and the like
offset is due; rolls the like probability, attempts the like on success of
the roll, and in every case sets the delay to the `inf` sentinel so the
trigger can never fire again. -/
def likeStep (env : ReelEnv) (st : ReelLoopState) (elapsed : ℚ) :
    ReelLoopState × List ReelAction :=
  match st.likeDelay with
  | some d =>
    if st.liked = false ∧ d ≤ elapsed then
      if env.likeRoll then
        ({ st with liked := env.likeSucceeds, likeDelay := none },
          [.likeAttempt env.likeSucceeds])
      else ({ st with likeDelay := none }, [])
    else (st, [])
  | none => (st, [])

/-- The comment block of the loop body: runs when not yet commented, the
comment roll succeeded, and 60% of the watch window has elapsed; marks
`commented` on success and clears `should_comment` in every case. -/
def commentStep (env : ReelEnv) (st : ReelLoopState) (elapsed : ℚ) :
    ReelLoopState × List ReelAction :=
  if st.commented = false ∧ st.shouldComment = true ∧
      env.watchTime * (3 / 5 : ℚ) ≤ elapsed then
    ({ st with commented := env.commentSucceeds, shouldComment := false },
      [.commentSim env.commentSucceeds])
  else (st, [])

/-- One iteration of the interaction loop: the three blocks in source
order. -/
def reelLoopStep (env : ReelEnv) (st : ReelLoopState) (elapsed : ℚ) :
    ReelLoopState × List ReelAction :=
  let l := lightStep st elapsed
  let k := likeStep env l.1 elapsed
  let c := commentStep env k.1 elapsed
  (c.1, l.2 ++ k.2 ++ c.2)

/-- The interaction `while` loop over the elapsed values it observes. -/
def reelLoop (env : ReelEnv) :
    List ℚ → ReelLoopState → ReelLoopState × List ReelAction
  | [], st => (st, [])
  | e :: es, st =>
    let s := reelLoopStep env st e
    let r := reelLoop env es s.1
    (r.1, s.2 ++ r.2)

/-- `process_reel`: tap the card open (a failed tap returns `None` at
once), run the interaction loop over the watch window, then navigate back
to the grid.  Returns the liked/commented tallies and the action trace. -/
def process_reel (env : ReelEnv) : Option (Bool × Bool) × List ReelAction :=
  if env.tapOpens = false then (none, [.tapOpen false])
  else
    let r := reelLoop env env.elapsedTicks
      ⟨false, false, env.shouldComment0, some env.likeDelay0,
        env.interactionTimes⟩
    (some (r.1.liked, r.1.commented), .tapOpen true :: r.2 ++ [.navBack])

/-- Recognizer for like attempts in a trace. -/
def isLikeAttempt : ReelAction → Bool
  | .likeAttempt _ => true
  | _ => false

/-- Number of like attempts in a trace. -/
def likeAttempts (acts : List ReelAction) : Nat :=
  acts.countP (fun a => isLikeAttempt a)

/-- The like trigger is armed while the reel is unliked and the delay has
not been replaced by the `inf` sentinel. -/
def armedCount (st : ReelLoopState) : Nat :=
  if st.liked = false ∧ st.likeDelay.isSome then 1 else 0

/-- The light block never touches the like state and performs no like
attempt. -/
theorem lightStep_like_free (st : ReelLoopState) (e : ℚ) :
    armedCount (lightStep st e).1 = armedCount st ∧
    likeAttempts (lightStep st e).2 = 0 := by
  unfold lightStep
  rcases st with ⟨liked, commented, sc, ld, ints⟩
  rcases ints with _ | ⟨t, rest⟩
  · exact ⟨rfl, rfl⟩
  · dsimp only
    split
    · exact ⟨rfl, rfl⟩
    · exact ⟨rfl, rfl⟩

/-- The comment block never touches the like state and performs no like
attempt. -/
theorem commentStep_like_free (env : ReelEnv) (st : ReelLoopState) (e : ℚ) :
    armedCount (commentStep env st e).1 = armedCount st ∧
    likeAttempts (commentStep env st e).2 = 0 := by
  unfold commentStep
  split
  · exact ⟨rfl, rfl⟩
  · exact ⟨rfl, rfl⟩

/-- The like block: its attempts plus the arming it leaves behind never
exceed the arming it found — once it fires, the trigger is disarmed for
good. -/
theorem likeStep_disarms (env : ReelEnv) (st : ReelLoopState) (e : ℚ) :
    likeAttempts (likeStep env st e).2 +
      armedCount (likeStep env st e).1 ≤ armedCount st := by
  unfold likeStep
  rcases hld : st.likeDelay with _ | d
  · simp [armedCount, likeAttempts, hld]
  · dsimp only
    split
    case isTrue h =>
      split
      · simp [armedCount, likeAttempts, isLikeAttempt, h.1, hld,
          List.countP_cons]
      · simp [armedCount, likeAttempts, h.1, hld]
    case isFalse h =>
      simp [armedCount, likeAttempts, hld]

/-- One loop iteration: attempts made plus arming left never exceed the
arming found. -/
theorem reelLoopStep_disarms (env : ReelEnv) (st : ReelLoopState) (e : ℚ) :
    likeAttempts (reelLoopStep env st e).2 +
      armedCount (reelLoopStep env st e).1 ≤ armedCount st := by
  obtain ⟨hl1, hl2⟩ := lightStep_like_free st e
  obtain ⟨hc1, hc2⟩ :=
    commentStep_like_free env (likeStep env (lightStep st e).1 e).1 e
  have hk := likeStep_disarms env (lightStep st e).1 e
  have hsplit : likeAttempts (reelLoopStep env st e).2 =
      likeAttempts (lightStep st e).2 +
      likeAttempts (likeStep env (lightStep st e).1 e).2 +
      likeAttempts
        (commentStep env (likeStep env (lightStep st e).1 e).1 e).2 := by
    simp [reelLoopStep, likeAttempts, List.countP_append, Nat.add_assoc]
  have harm : armedCount (reelLoopStep env st e).1 =
      armedCount (likeStep env (lightStep st e).1 e).1 := by
    simpa [reelLoopStep] using hc1
  rw [hl1] at hk
  rw [hsplit, hl2, hc2, harm]
  omega

/-- The whole interaction loop: like attempts never exceed the arming of
the state it starts from. -/
theorem reelLoop_like_bound (env : ReelEnv) :
    ∀ (es : List ℚ) (st : ReelLoopState),
      likeAttempts (reelLoop env es st).2 ≤ armedCount st := by
  intro es
  induction es with
  | nil => intro st; simp [reelLoop, likeAttempts]
  | cons e es ih =>
    intro st
    have hstep := reelLoopStep_disarms env st e
    have hrest := ih (reelLoopStep env st e).1
    have hsplit : likeAttempts (reelLoop env (e :: es) st).2 =
        likeAttempts (reelLoopStep env st e).2 +
        likeAttempts (reelLoop env es (reelLoopStep env st e).1).2 := by
      simp [reelLoop, likeAttempts, List.countP_append]
    rw [hsplit]
    omega

/-- C10: within one invocation of `process_reel`, at most one like attempt
is ever made — once the like branch has run (roll declined, tap failed, or
like succeeded) the trigger is replaced by the `inf` sentinel and can
never fire again within the card's watch window. -/
theorem at_most_one_like_attempt (env : ReelEnv) :
    likeAttempts (process_reel env).2 ≤ 1 := by
  unfold process_reel
  split
  · simp [likeAttempts, isLikeAttempt]
  · have h := reelLoop_like_bound env env.elapsedTicks
      ⟨false, false, env.shouldComment0, some env.likeDelay0,
        env.interactionTimes⟩
    have harm : armedCount
        ⟨false, false, env.shouldComment0, some env.likeDelay0,
          env.interactionTimes⟩ = 1 := by
      simp [armedCount]
    rw [harm] at h
    simpa [likeAttempts, isLikeAttempt, List.countP_append,
      List.countP_cons] using h

end IGLA

